import Mathlib

/-!
Shallow embedding of the ImbaML experiment harness
(`src/experiment/main.py`, `src/experiment/runner.py`, `src/experiment/imba.py`).

Conventions of the embedding:
* Python scalar values appearing in feature matrices and label vectors are
  modelled by `Cell`: numbers (modelled as integers, since no claim depends on
  fractional cell values), strings, and the missing value `NaN` (`Cell.na`).
* A pandas `DataFrame` is modelled column-major together with its row index
  (`idx`), mirroring pandas' behaviour that dropping columns keeps the index.
* Fallible Python code is modelled in `Except PyErr`; an uncaught exception is
  an `Except.error`.
* Calls into external libraries (scikit-learn's `train_test_split`, the metric
  functions, ray-tune, the fitted estimators) are modelled as fields of
  environment structures (`StatsEnv`, `Env`, `ImbaEnv`); the code under
  verification is only the glue defined in this repository.
* Log output and externally visible operations are modelled as a trace of
  `Event`s, emitted exactly where the source logs or performs the call.
-/

namespace ImbaML

/-- A Python scalar as it appears in feature matrices and label vectors:
a number, a string, or the missing value `NaN`. -/
inductive Cell where
  | num (v : Int)
  | str (s : String)
  | na
deriving DecidableEq, Repr

/-- `True` iff the Python value is a `str` (the `type(x) is str` test). -/
def Cell.isStr : Cell → Bool
  | .str _ => true
  | _ => false

/-- A pandas `DataFrame`, modelled column-major with an explicit row index
(pandas keeps the index when columns are dropped). -/
structure DataFrame where
  idx : List Nat
  cols : List (String × List Cell)
deriving DecidableEq, Repr

def DataFrame.colNames (df : DataFrame) : List String :=
  df.cols.map Prod.fst

/-- `df.get(name)`: the column with the given label, if present. -/
def DataFrame.getCol? (df : DataFrame) (name : String) : Option (List Cell) :=
  (df.cols.find? (fun c => c.1 == name)).map Prod.snd

/-- `df.drop([name], axis=1)`: removes every column labelled `name`,
keeping the row index. -/
def DataFrame.dropCol (df : DataFrame) (name : String) : DataFrame :=
  ⟨df.idx, df.cols.filter (fun c => !(c.1 == name))⟩

/-- Select the entries of `xs` at the given positions (in order). -/
def keepPositions (keep : List Nat) (xs : List α) : List α :=
  keep.filterMap (fun i => xs.get? i)

/-- `df.dropna()`: keep exactly the rows in which no column holds `NaN`. -/
def DataFrame.dropna (df : DataFrame) : DataFrame :=
  let keep := (List.range df.idx.length).filter
    (fun i => df.cols.all (fun c => !(c.2.getD i Cell.na == Cell.na)))
  ⟨keepPositions keep df.idx, df.cols.map (fun c => (c.1, keepPositions keep c.2))⟩

/-- `pd.concat([a, b], axis=1).reset_index(drop=True)`: place the columns of
`b` after those of `a` and renumber the row index from zero. -/
def DataFrame.hconcatReset (a : DataFrame) (b : List (String × List Cell)) : DataFrame :=
  ⟨List.range a.idx.length, a.cols ++ b⟩

/-- Insert `x` into a list sorted by `le` (stable, as Python's sort). -/
def insertSorted (le : α → α → Bool) (x : α) : List α → List α
  | [] => [x]
  | y :: ys => if le x y then x :: y :: ys else y :: insertSorted le x ys

/-- Stable insertion sort by `le` (ascending, as Python's `sorted`). -/
def insertionSort (le : α → α → Bool) : List α → List α
  | [] => []
  | x :: xs => insertSorted le x (insertionSort le xs)

/-- First-occurrence deduplication (the key order of a Python `dict`/`Counter`):
`seen` accumulates the values already emitted. -/
def firstDedupAux (seen : List Cell) : List Cell → List Cell
  | [] => []
  | c :: rest =>
      if c ∈ seen then firstDedupAux seen rest
      else c :: firstDedupAux (c :: seen) rest

/-- A total order on cells used where pandas/sklearn sort homogeneous value
sets (numbers by value, strings lexicographically; in the code under study the
sorted sets are homogeneous, so the cross-kind ordering is never exercised). -/
def cellLeTotal : Cell → Cell → Bool
  | .num a, .num b => a ≤ b
  | .str a, .str b => a ≤ b
  | .num _, _ => true
  | .str _, .num _ => false
  | .str _, _ => true
  | .na, .na => true
  | .na, _ => false

/-- The column name `pd.get_dummies` gives the indicator of value `c`. -/
def cellDummyName (pfx : String) (c : Cell) : String :=
  pfx ++ "_" ++ (match c with | .num v => toString v | .str s => s | .na => "nan")

/-- `pd.get_dummies(column, prefix=pfx)`: one 0/1 indicator column per distinct
non-missing value (indicator values modelled as `1`/`0`). -/
def getDummies (pfx : String) (col : List Cell) : List (String × List Cell) :=
  let vals := insertionSort cellLeTotal
    (firstDedupAux [] (col.filter (fun c => !(c == Cell.na))))
  vals.map (fun v =>
    (cellDummyName pfx v, col.map (fun c => if c == v then Cell.num 1 else Cell.num 0)))

/-- `sklearn.preprocessing.LabelEncoder().fit_transform(y)`: classes are the
sorted distinct values, each label replaced by its class index. -/
def labelEncode (y : List Cell) : List Cell :=
  let classes := insertionSort cellLeTotal (firstDedupAux [] y)
  y.map (fun c => Cell.num (Int.ofNat ((classes.findIdx? (fun x => x == c)).getD 0)))

/-- `.squeeze()` on the label column: the identity under the list-of-labels
model (a one-column frame and its series carry the same labels). -/
def squeeze (y : List Cell) : List Cell := y

/-- A Python exception. -/
inductive PyErr where
  | attributeError (name : String)
  | typeError (msg : String)
  | valueError (msg : String)
  | indexError
  | exception (msg : String)
  | notFittedError
deriving DecidableEq, Repr

/-- The threaded state of `ExperimentRunner.preprocess_data`'s column loop.
`cur` is the object the local variable `X` refers to; `caller` is the final
state of the caller's `DataFrame` object (mutated in place by
`dropna(inplace=True)` and `drop(inplace=True)`); `aliased` records whether
the local `X` still refers to the caller's object (true until the first
`X = pd.concat(...)` rebinds `X` to a fresh frame). -/
structure PPState where
  cur : DataFrame
  caller : DataFrame
  aliased : Bool
deriving DecidableEq, Repr

/-- One iteration of `preprocess_data`'s `for dataset_feature_name in X.copy()`
loop (`runner.py:176-185`): fetch the column; drop it if empty; one-hot encode
it (drop + concat + reset_index) if its first entry is a string. -/
def ppStep (st : PPState) (name : String) : Except PyErr PPState :=
  match st.cur.getCol? name with
  | none => .error (.typeError "object of type NoneType has no len()")
  | some [] =>
      let cur' := st.cur.dropCol name
      .ok ⟨cur', if st.aliased then cur' else st.caller, st.aliased⟩
  | some (c :: rest) =>
      if c.isStr then
        let dummies := getDummies name (c :: rest)
        let dropped := st.cur.dropCol name
        .ok ⟨dropped.hconcatReset dummies,
             if st.aliased then dropped else st.caller, false⟩
      else .ok st

/-- Result of `preprocess_data`: the final state of the caller's `DataFrame`
object, and the returned value (`none` models Python's `None`). -/
structure PreprocessResult where
  callerX : DataFrame
  result : Option (DataFrame × List Cell)
deriving DecidableEq, Repr

/-- `ExperimentRunner.preprocess_data` (`runner.py:169-192`): drop rows with
missing values in place, label-encode a string-valued label vector, drop empty
columns and one-hot encode string columns, and return `None` whenever the row
count of `X` no longer matches the length of `y`. -/
def preprocess_data (X : DataFrame) (y : List Cell) : Except PyErr PreprocessResult :=
  let X0 := X.dropna
  match y.head? with
  | none => .error .indexError
  | some firstY =>
    let y1 := if firstY.isStr then labelEncode y else y
    match X0.colNames.foldlM ppStep ⟨X0, X0, true⟩ with
    | .error e => .error e
    | .ok stF =>
        if stF.cur.idx.length ≠ y1.length then .ok ⟨stF.caller, none⟩
        else .ok ⟨stF.caller, some (stF.cur, y1)⟩

/-- A feature matrix: either a numpy array (row-major) or a pandas frame. -/
inductive Matrix where
  | ndarray (rows : List (List Cell))
  | dataframe (df : DataFrame)
deriving DecidableEq, Repr

/-- The flat dataset record of `domain.Dataset`: identifier, name, target
column name, feature matrix and label vector. -/
structure Dataset where
  id : Nat
  name : String
  target_label : String
  X : Matrix
  y : List Cell
deriving DecidableEq, Repr

/-- `collections.Counter(ys)`: distinct values in first-occurrence order,
each with its number of occurrences. -/
def counter (ys : List Cell) : List (Cell × Nat) :=
  (firstDedupAux [] ys).map (fun c => (c, ys.count c))

/-- `Counter.get(c, None)`: the recorded count of `c`, if any. -/
def lookupCount (cb : List (Cell × Nat)) (c : Cell) : Option Nat :=
  (cb.find? (fun p => p.1 == c)).map Prod.snd

/-- Read a list of cells as all-numeric, if it is. -/
def cellsAsInts? : List Cell → Option (List Int)
  | [] => some []
  | .num v :: rest => (cellsAsInts? rest).map (v :: ·)
  | _ => none

/-- Read a list of cells as all-string, if it is. -/
def cellsAsStrs? : List Cell → Option (List String)
  | [] => some []
  | .str s :: rest => (cellsAsStrs? rest).map (s :: ·)
  | _ => none

/-- Python's `sorted` on a set of labels: numbers sort by value and strings
lexicographically; sorting a mixed set raises `TypeError` (a set containing
`NaN` is treated as mixed here; such label sets do not occur in the
benchmarks). -/
def sortCells (cs : List Cell) : Except PyErr (List Cell) :=
  match cellsAsInts? cs with
  | some xs => .ok ((insertionSort (fun a b => a ≤ b) xs).map Cell.num)
  | none =>
    match cellsAsStrs? cs with
    | some ss => .ok ((insertionSort (fun a b => a ≤ b) ss).map Cell.str)
    | none => .error (.typeError "unorderable types")

/-- The name of a quality metric logged by `examine_quality`. -/
inductive MetricName where
  | f1 | balanced_accuracy | recall | precision | gmean | kappa
deriving DecidableEq, Repr

/-- An observable step of `ExperimentRunner.run`: a log line or a call into
`fit`/`predict`/`examine_quality`.  `positiveDetected` marks the computation of
`positive_class_label` at `runner.py:98-99`. -/
inductive Event where
  | taskStarted (id : Nat) (name : String)
  | preprocessed (id : Nat)
  | splitDone (id : Nat)
  | classCounted (cb : List (Cell × Nat))
  | multiclassSkip
  | unknownPositive
  | positiveDetected (label : Cell)
  | fitStarted (dataset_name : String)
  | predicted (y_pred : List Cell)
  | examined (pos_label : Cell)
  | metricLogged (m : MetricName) (value : Rat)
  | exceptionLogged (e : PyErr)
deriving DecidableEq, Repr

/-- The train/test split returned by `sklearn.model_selection.train_test_split`. -/
structure SplitResult where
  X_train : Matrix
  X_test : Matrix
  y_train : List Cell
  y_test : List Cell
deriving DecidableEq, Repr

/-- The external statistics libraries used by the base runner:
`train_test_split` (invoked by `split_data_on_train_and_test` with fixed
arguments `random_state=42, test_size=0.2, stratify=y`) and the six quality
metrics of `examine_quality`.  The metrics taking a `Cell` receive the
`pos_label` argument. -/
structure StatsEnv where
  split : Matrix → List Cell → Except PyErr SplitResult
  fbeta_score : List Cell → List Cell → Cell → Except PyErr Rat
  balanced_accuracy_score : List Cell → List Cell → Except PyErr Rat
  recall_score : List Cell → List Cell → Cell → Except PyErr Rat
  precision_score : List Cell → List Cell → Cell → Except PyErr Rat
  geometric_mean_score : List Cell → List Cell → Cell → Except PyErr Rat
  cohen_kappa_score : List Cell → List Cell → Except PyErr Rat

/-- The runner's methods and external dependencies, over an abstract runner
state `σ` (the subclass instance holding `_fitted_model` etc.):
`fitM`/`predictM` are the concrete subclass's `fit` and `predict`. -/
structure Env (σ : Type) where
  stats : StatsEnv
  fitM : σ → Matrix → List Cell → String → String → Except PyErr σ
  predictM : σ → Matrix → Except PyErr (List Cell)

/-- `ExperimentRunner.examine_quality` (`runner.py:139-156`): compute and log,
in order, F1, balanced accuracy, recall, precision, geometric mean and Cohen's
kappa; each metric is logged right after it is computed, so an exception keeps
the log lines already emitted. -/
def examine_quality (se : StatsEnv) (y_test y_pred : List Cell) (pos : Cell) :
    List Event × Option PyErr :=
  let ev0 : List Event := [.examined pos]
  match se.fbeta_score y_test y_pred pos with
  | .error e => (ev0, some e)
  | .ok v1 =>
    let ev1 := ev0 ++ [.metricLogged .f1 v1]
    match se.balanced_accuracy_score y_test y_pred with
    | .error e => (ev1, some e)
    | .ok v2 =>
      let ev2 := ev1 ++ [.metricLogged .balanced_accuracy v2]
      match se.recall_score y_test y_pred pos with
      | .error e => (ev2, some e)
      | .ok v3 =>
        let ev3 := ev2 ++ [.metricLogged .recall v3]
        match se.precision_score y_test y_pred pos with
        | .error e => (ev3, some e)
        | .ok v4 =>
          let ev4 := ev3 ++ [.metricLogged .precision v4]
          match se.geometric_mean_score y_test y_pred pos with
          | .error e => (ev4, some e)
          | .ok v5 =>
            let ev5 := ev4 ++ [.metricLogged .gmean v5]
            match se.cohen_kappa_score y_test y_pred with
            | .error e => (ev5, some e)
            | .ok v6 => (ev5 ++ [.metricLogged .kappa v6], none)

/-- The closure `fit_predict_evaluate` of `runner.py:131-136`:
`self.fit(X_train, y_train, task.target_label, task.name)`, then
`self.predict(X_test)`, then `examine_quality(y_test, y_predictions,
positive_class_label)`.  Returns the events emitted, the runner state after
the call, and the exception raised, if any. -/
def fit_predict_evaluate (env : Env σ) (st : σ) (X_train : Matrix)
    (y_train : List Cell) (target dataset_name : String) (X_test : Matrix)
    (y_test : List Cell) (pos : Cell) : List Event × σ × Option PyErr :=
  match env.fitM st X_train y_train target dataset_name with
  | .error e => ([.fitStarted dataset_name], st, some e)
  | .ok st' =>
    match env.predictM st' X_test with
    | .error e => ([.fitStarted dataset_name], st', some e)
    | .ok y_pred =>
      let (evs, err) := examine_quality env.stats y_test y_pred pos
      ([.fitStarted dataset_name, .predicted y_pred] ++ evs, st', err)

/-- Modelled from the spec: `ExceptionWrapper.log_exception` from
`utils.decorators`, which is imported by `runner.py` and `imba.py` but absent
from the sources.  Per the spec, "error handling consists of catching
exceptions from external library calls and logging them": the wrapper runs the
wrapped call and, if it raised, logs the exception instead of propagating it. -/
def ExceptionWrapper.log_exception (r : List Event × σ × Option PyErr) :
    List Event × σ :=
  match r with
  | (evs, s, none) => (evs, s)
  | (evs, s, some e) => (evs ++ [.exceptionLogged e], s)

/-- Lines 78-87 of `ExperimentRunner.run`: a numpy feature matrix is split
directly; a pandas one is first preprocessed (possibly mutating the task's
`X` in place), aborting with `none` when `preprocess_data` returned `None`.
Returns the events, the task with its (possibly mutated) `X`, and the split. -/
def splitPhase (env : Env σ) (d : Dataset) :
    Except PyErr (List Event × Dataset × Option SplitResult) :=
  match d.X with
  | .ndarray m =>
    match env.stats.split (.ndarray m) d.y with
    | .error e => .error e
    | .ok s => .ok ([.splitDone d.id], d, some s)
  | .dataframe df =>
    match preprocess_data df (squeeze d.y) with
    | .error e => .error e
    | .ok pr =>
      let d' := { d with X := .dataframe pr.callerX }
      match pr.result with
      | none => .ok ([.preprocessed d.id], d', none)
      | some (X', y') =>
        match env.stats.split (.dataframe X') (squeeze y') with
        | .error e => .error e
        | .ok s => .ok ([.preprocessed d.id, .splitDone d.id], d', some s)

/-- Lines 89-126 of `ExperimentRunner.run`: count the training classes (logged
twice, at lines 90 and 126), skip multiclass tasks, and detect the positive
class as the last element of the sorted class labels; the proportion of
positives is computed but not used further. -/
def classPhase (y_train : List Cell) : Except PyErr (List Event × Option Cell) :=
  let cb := counter y_train
  if cb.length > 2 then .ok ([.classCounted cb, .multiclassSkip], none)
  else
    match sortCells (cb.map Prod.fst) with
    | .error e => .error e
    | .ok ks =>
      match ks.getLast? with
      | none => .error (.valueError "not enough values to unpack")
      | some pos =>
        match lookupCount cb pos with
        | none => .ok ([.classCounted cb, .unknownPositive], none)
        | some npos =>
          let _proportion_of_positives : Rat := (npos : Rat) / (y_train.length : Rat)
          .ok ([.classCounted cb, .positiveDetected pos, .classCounted (counter y_train)],
               some pos)

/-- One iteration of the `for task in self._tasks` loop of
`ExperimentRunner.run` for a non-`None` task (`runner.py:75-137`): the boolean
is `true` when the iteration executed a `return`. -/
def runTask (env : Env σ) (st : σ) (d : Dataset) :
    Except PyErr (List Event × Dataset × σ × Bool) :=
  let ev0 : List Event := [.taskStarted d.id d.name]
  match splitPhase env d with
  | .error e => .error e
  | .ok (ev1, d', s?) =>
    match s? with
    | none => .ok (ev0 ++ ev1, d', st, true)
    | some s =>
      match classPhase s.y_train with
      | .error e => .error e
      | .ok (ev2, pos?) =>
        match pos? with
        | none => .ok (ev0 ++ ev1 ++ ev2, d', st, true)
        | some pos =>
          let (ev3, st') := ExceptionWrapper.log_exception
            (fit_predict_evaluate env st s.X_train s.y_train d.target_label
              d.name s.X_test s.y_test pos)
          .ok (ev0 ++ ev1 ++ ev2 ++ ev3, d', st', false)

/-- The task loop of `ExperimentRunner.run` (`runner.py:71-137`): a `None`
task, a failed preprocessing, or a multiclass task ends the whole loop
(`return`), leaving the remaining tasks untouched.  Returns the emitted
events, the final task list (tasks keep any in-place mutation of their `X`),
and the final runner state. -/
def runLoop (env : Env σ) :
    σ → List (Option Dataset) → Except PyErr (List Event × List (Option Dataset) × σ)
  | st, [] => .ok ([], [], st)
  | st, none :: rest => .ok ([], none :: rest, st)
  | st, some d :: rest =>
    match runTask env st d with
    | .error e => .error e
    | .ok (evs, d', st', halted) =>
      if halted then .ok (evs, some d' :: rest, st')
      else
        match runLoop env st' rest with
        | .error e => .error e
        | .ok (evs2, ts, st'') => .ok (evs ++ evs2, some d' :: ts, st'')

/-- The outcome of `ExperimentRunner.run`: trace, final task objects, final
runner state and the final `_n_evals` attribute. -/
structure RunResult (σ : Type) where
  events : List Event
  tasks : List (Option Dataset)
  st : σ
  n_evals : Nat
deriving Repr

/-- `ExperimentRunner.run` (`runner.py:68-137`): store the trial count if one
was passed (`self._n_evals` defaults to 10), then iterate over the tasks. -/
def ExperimentRunner.run (env : Env σ) (st : σ) (n_evals0 : Nat)
    (n_evals : Option Nat) (tasks : List (Option Dataset)) :
    Except PyErr (RunResult σ) :=
  let n := n_evals.getD n_evals0
  match runLoop env st tasks with
  | .error e => .error e
  | .ok (evs, ts, st') => .ok ⟨evs, ts, st', n⟩

/-- The hyper-parameter configuration of one trial, as stored under
`config['algorithm_configuration']` by ray-tune: the chosen model class and
its keyword arguments (`model_class` is always placed in the dictionary by the
search-space generators, so it is a plain field here). -/
structure AlgoConfig where
  model_class : String
  params : List (String × Int)
deriving DecidableEq, Repr

/-- The `metrics` dictionary of the best trial: `loss` and the trial's
`config['algorithm_configuration']` (flattening the two-step
`metrics.get('config').get('algorithm_configuration')` lookup; a missing
entry is `none`, as `dict.get` returns `None`). -/
structure TrialMetrics where
  loss : Option Rat
  config : Option AlgoConfig
deriving DecidableEq, Repr

/-- A scikit-learn style estimator object: its class, its constructor
arguments, and the training data once `fit` was called on it. -/
structure SkModel where
  cls : String
  params : List (String × Int)
  trained : Option (Matrix × List Cell)
deriving DecidableEq, Repr

/-- The external dependencies of `ImbaExperimentRunner`: the whole ray-tune
search (`Tuner.fit` + `get_best_result`, returning the best trial's `metrics`
attribute, which `getattr` may find to be `None`), the estimator's `fit`, and
the estimator's `predict`. -/
structure ImbaEnv where
  tunerFit : Matrix → List Cell → String → Nat → Except PyErr (Option TrialMetrics)
  modelFit : SkModel → Matrix → List Cell → Except PyErr SkModel
  modelPredict : SkModel → Matrix → Except PyErr (List Cell)

/-- The state of an `ImbaExperimentRunner` instance: the metric name given to
`__init__`, and the `_fitted_model` attribute — `none` when the attribute was
never assigned (accessing it raises `AttributeError`), `some none` when it was
assigned `None` (the `NotFittedError` branch of `predict`), `some (some m)`
when it holds a model. -/
structure ImbaState where
  _metric : String
  _fitted_model : Option (Option SkModel)
deriving DecidableEq, Repr

/-- The metric dispatch of `ImbaExperimentRunner.fit` (`imba.py:103-110`):
the chosen sklearn scoring function, identified by name. -/
def metricFor (m : String) : Except PyErr String :=
  if m = "f1" then .ok "f1_score"
  else if m = "balanced_accuracy" then .ok "balanced_accuracy_score"
  else if m = "average_precision" then .ok "average_precision_score"
  else .error (.valueError ("_metric attribute contains not supported value: " ++ m ++ "."))

/-- The body of `ImbaExperimentRunner.fit` (`imba.py:79-171`): select the
metric, run the delegated ray-tune search, read the best trial's metrics
(raising when no best trial was found), rebuild the best model from its
configuration, log its validation loss (where `float(None)` would raise),
fit it on the training data and store it in `_fitted_model`.  The method is
decorated with `ExceptionWrapper.log_exception`, so the raised exception, if
any, is returned alongside the (unchanged) state rather than propagated. -/
def ImbaExperimentRunner.fit (env : ImbaEnv) (st : ImbaState) (X_train : Matrix)
    (y_train : List Cell) (n_evals : Nat) : ImbaState × Option PyErr :=
  match metricFor st._metric with
  | .error e => (st, some e)
  | .ok metric =>
    match env.tunerFit X_train y_train metric n_evals with
    | .error e => (st, some e)
    | .ok none => (st, some (.exception "Optimization failed. No best trial found."))
    | .ok (some bm) =>
      match bm.config with
      | none => (st, some (.attributeError "get"))
      | some cfg =>
        let best_model : SkModel := ⟨cfg.model_class, cfg.params, none⟩
        match bm.loss with
        | none => (st, some (.typeError "float() argument must not be None"))
        | some _best_validation_loss =>
          match env.modelFit best_model X_train y_train with
          | .error e => (st, some e)
          | .ok trained => ({ st with _fitted_model := some (some trained) }, none)

/-- The body of `ImbaExperimentRunner.predict` (`imba.py:173-179`): reading a
never-assigned `_fitted_model` raises `AttributeError`; a `None` model raises
`NotFittedError`; otherwise the stored model's `predict` is delegated to. -/
def ImbaExperimentRunner.predict (env : ImbaEnv) (st : ImbaState) (X_test : Matrix) :
    Except PyErr (List Cell) :=
  match st._fitted_model with
  | none => .error (.attributeError "_fitted_model")
  | some none => .error .notFittedError
  | some (some m) => env.modelPredict m X_test

/-- Modelled from the spec: `AutoMLRunner`, the parent class of
`ImbaExperimentRunner` imported by `imba.py` from `.runner` but absent from
the sources, runs the search "per dataset and per metric" with the configured
trial count; accordingly the runner's `fit` method receives the runner's
`_n_evals` as its `n_evals` argument when invoked from the task loop.  (The
base-class loop in `runner.py` passes four arguments; the bridging of the
trial count is the part modelled from the spec.)  `ImbaExperimentRunner.fit`
never raises, because it is decorated with `ExceptionWrapper.log_exception`;
`predict`'s decorator, which would turn a raise into a logged `None` result,
is left undecorated here — under the task loop's own wrapper both behaviours
are caught and logged. -/
def mkImbaEnv (se : StatsEnv) (env : ImbaEnv) (n_evals : Nat) : Env ImbaState where
  stats := se
  fitM := fun st X y _target _name => .ok (ImbaExperimentRunner.fit env st X y n_evals).1
  predictM := fun st X => ImbaExperimentRunner.predict env st X

/-- The outcome of the external OpenML fetch performed by
`OpenMLExperimentRunner.load_dataset`: data, a pool timeout, or an exception. -/
inductive FetchOutcome where
  | fetched (name target : String) (X : Matrix) (y : List Cell)
  | timeout
  | raised (e : PyErr)
deriving DecidableEq, Repr

/-- A log line of `load_dataset`. -/
inductive LoadEvent where
  | timeoutLogged (task_id : Option Nat)
  | exceptionTraceLogged (e : PyErr)
deriving DecidableEq, Repr

/-- `OpenMLExperimentRunner.load_dataset` (`runner.py:227-242`): fetch the
task and its data from OpenML (delegated, outcome given by `fetch`); a pool
timeout or any other exception is logged and `None` is returned; on success
the dataset record is built with the next value of the id counter (the
counter advances only on success, as `next` is called in the return
expression). -/
def OpenMLExperimentRunner.load_dataset (fetch : Option Nat → FetchOutcome)
    (idCounter : Nat) (task_id : Option Nat) :
    List LoadEvent × Option Dataset × Nat :=
  match fetch task_id with
  | .timeout => ([.timeoutLogged task_id], none, idCounter)
  | .raised e => ([.exceptionTraceLogged e], none, idCounter)
  | .fetched name target X y => ([], some ⟨idCounter, name, target, X, y⟩, idCounter + 1)

/-- A command-line argument value: argparse stores given options as strings;
the default of `--trials` is the integer `30`. -/
inductive Arg where
  | s (v : String)
  | i (v : Int)
deriving DecidableEq, Repr

/-- The argparse namespace produced by `parse_args` in `ExperimentMain.main`:
the four registered destinations are `automl`, `out`, `preset` and `t`
(`--out` is stored under dest `out` and `--trials` under dest `t`,
`main.py:18-21`). -/
structure ArgNamespace where
  automl : String
  out : String
  preset : String
  t : Arg
deriving DecidableEq, Repr

/-- `getattr(args, name)` on the parsed namespace: only the four registered
destinations exist; any other name raises `AttributeError`. -/
def ArgNamespace.getattr (a : ArgNamespace) (name : String) : Except PyErr Arg :=
  if name = "automl" then .ok (.s a.automl)
  else if name = "out" then .ok (.s a.out)
  else if name = "preset" then .ok (.s a.preset)
  else if name = "t" then .ok a.t
  else .error (.attributeError name)

/-- Where `main` configures logging to go. -/
inductive LogTarget where
  | file (path : String)
  | console
deriving DecidableEq, Repr

/-- Which runner `main` instantiates. -/
inductive RunnerChoice where
  | ag (preset : Arg)
  | imba
deriving DecidableEq, Repr

/-- The configuration `main` would arrive at: logging destination, chosen
runner, and the trial count handed to `runner.run`. -/
structure MainOutcome where
  log_target : LogTarget
  runner : RunnerChoice
  trials : Arg
deriving DecidableEq, Repr

/-- `ExperimentMain.main` (`main.py:16-67`): parse the arguments, read the
four values back via `getattr` (in source order: `automl`, `o`, `preset`,
`trials`), configure logging from the output mode, choose the runner from the
backend name (validating the AutoGluon preset), and run it with the trial
count.  `now` stands for `datetime.now().strftime(...)` in the log file name.
Runner construction and `define_tasks` are outside this model; the outcome
records the configuration reached. -/
def ExperimentMain.main (now : String) (args : ArgNamespace) :
    Except PyErr MainOutcome :=
  match args.getattr "automl" with
  | .error e => .error e
  | .ok automl =>
    match args.getattr "o" with
    | .error e => .error e
    | .ok logging_output =>
      match args.getattr "preset" with
      | .error e => .error e
      | .ok autogluon_preset =>
        match args.getattr "trials" with
        | .error e => .error e
        | .ok trials =>
          let log_target? : Except PyErr LogTarget :=
            if logging_output = .s "file" then
              .ok (.file ((if automl = .s "ag" then "logs/AG/" else "logs/Imba/")
                ++ now ++ ".log"))
            else if logging_output = .s "console" then .ok .console
            else .error (.exception
              "Invalid --o option. Options available: ['file', 'console'].")
          match log_target? with
          | .error e => .error e
          | .ok log_target =>
            let runner? : Except PyErr RunnerChoice :=
              if automl = .s "ag" then
                if autogluon_preset ≠ .s "medium_quality" ∧
                    autogluon_preset ≠ .s "good_quality" then
                  .error (.exception
                    "Invalid --preset option. Options available: ['medium_quality', 'good_quality'].")
                else .ok (.ag autogluon_preset)
              else if automl = .s "imba" then .ok .imba
              else .error (.exception
                "Invalid --automl option. Options available: ['imba', 'ag'].")
            match runner? with
            | .error e => .error e
            | .ok runner => .ok ⟨log_target, runner, trials⟩

/-- Index of the first occurrence of `e` in a trace. -/
def firstIndexOf : List Event → Event → Option Nat
  | [], _ => none
  | x :: rest, e =>
      if x = e then some 0 else (firstIndexOf rest e).map (· + 1)

/-- `true` iff `a` occurs in the trace and its first occurrence is strictly
before the first occurrence of `b`. -/
def beforeIn (t : List Event) (a b : Event) : Bool :=
  match firstIndexOf t a, firstIndexOf t b with
  | some i, some j => i < j
  | _, _ => false

/-- Whether an event marks a `preprocess_data` call. -/
def isPreprocessEvent : Event → Bool
  | .preprocessed _ => true
  | _ => false

/-- Whether an event marks a train/test split. -/
def isSplitEvent : Event → Bool
  | .splitDone _ => true
  | _ => false

/-- `true` iff the given `preprocess_data` outcome is a normal return of
`None`. -/
def preprocessReturnedNone (r : Except PyErr PreprocessResult) : Bool :=
  match r with
  | .ok pr => pr.result.isNone
  | .error _ => false

/-- A concrete statistics environment for witnesses: the split echoes its
input and the metrics return distinct constants. -/
def demoStats : StatsEnv where
  split := fun X y => .ok ⟨X, X, y, y⟩
  fbeta_score := fun _ _ _ => .ok 1
  balanced_accuracy_score := fun _ _ => .ok 2
  recall_score := fun _ _ _ => .ok 3
  precision_score := fun _ _ _ => .ok 4
  geometric_mean_score := fun _ _ _ => .ok 5
  cohen_kappa_score := fun _ _ => .ok 6

/-- A concrete runner environment over a unit state whose `fit` and `predict`
always succeed. -/
def demoEnvU : Env Unit where
  stats := demoStats
  fitM := fun s _ _ _ _ => .ok s
  predictM := fun _ _ => .ok [Cell.num 1, Cell.num 0]

/-- A concrete runner environment over a unit state whose `fit` raises. -/
def demoFailEnv : Env Unit where
  stats := demoStats
  fitM := fun _ _ _ _ _ => .error (.exception "boom")
  predictM := fun _ _ => .ok []

/-- A numpy-matrix task. -/
def ndTask : Dataset :=
  ⟨1, "nd", "class", .ndarray [[.num 10], [.num 20]], [.num 0, .num 1]⟩

/-- A clean DataFrame task (no missing values, numeric column). -/
def dfTask : Dataset :=
  ⟨2, "df", "class", .dataframe ⟨[0, 1], [("a", [.num 5, .num 6])]⟩,
   [.num 0, .num 1]⟩

/-- A DataFrame task whose only column is string-valued, so preprocessing
drops it from the caller's frame in place and one-hot encodes it. -/
def dfStrTask : Dataset :=
  ⟨3, "dfs", "class", .dataframe ⟨[0, 1], [("c", [.str "p", .str "q"])]⟩,
   [.num 0, .num 1]⟩

/-- A DataFrame task with a missing value in its second row. -/
def dfNaTask : Dataset :=
  ⟨4, "dfna", "class", .dataframe ⟨[0, 1], [("a", [.num 7, .na])]⟩,
   [.num 0, .num 1]⟩

/-- A numpy task with three training classes. -/
def ndMultiTask : Dataset :=
  ⟨5, "multi", "class", .ndarray [[.num 1], [.num 2], [.num 3]],
   [.num 0, .num 1, .num 2]⟩

/-- A concrete ray/estimator environment for witnesses. -/
def demoImbaEnv : ImbaEnv where
  tunerFit := fun _ _ _ _ => .ok (some ⟨some (-1), some ⟨"XGBClassifier", [("n_estimators", 50)]⟩⟩)
  modelFit := fun m X y => .ok { m with trained := some (X, y) }
  modelPredict := fun _ _ => .ok [Cell.num 1, Cell.num 0]

/-! Structural lemmas about the phases of `ExperimentRunner.run`. -/

lemma splitPhase_nd {env : Env σ} {d : Dataset} {m : List (List Cell)}
    {s : SplitResult} (hX : d.X = .ndarray m)
    (hs : env.stats.split (.ndarray m) d.y = .ok s) :
    splitPhase env d = .ok ([.splitDone d.id], d, some s) := by
  simp only [splitPhase, hX, hs]

lemma splitPhase_df {env : Env σ} {d : Dataset} {df : DataFrame}
    {cx : DataFrame} {X' : DataFrame} {y' : List Cell} {s : SplitResult}
    (hX : d.X = .dataframe df)
    (hp : preprocess_data df (squeeze d.y) = .ok ⟨cx, some (X', y')⟩)
    (hs : env.stats.split (.dataframe X') (squeeze y') = .ok s) :
    splitPhase env d =
      .ok ([.preprocessed d.id, .splitDone d.id],
           { d with X := .dataframe cx }, some s) := by
  simp only [splitPhase, hX, hp, hs]

lemma splitPhase_df_none {env : Env σ} {d : Dataset} {df : DataFrame}
    {cx : DataFrame} (hX : d.X = .dataframe df)
    (hp : preprocess_data df (squeeze d.y) = .ok ⟨cx, none⟩) :
    splitPhase env d =
      .ok ([.preprocessed d.id], { d with X := .dataframe cx }, none) := by
  simp only [splitPhase, hX, hp]

lemma classPhase_ok {y_train : List Cell} {ks : List Cell} {pos : Cell}
    {npos : Nat} (hlen : (counter y_train).length ≤ 2)
    (hsort : sortCells ((counter y_train).map Prod.fst) = .ok ks)
    (hlast : ks.getLast? = some pos)
    (hcnt : lookupCount (counter y_train) pos = some npos) :
    classPhase y_train =
      .ok ([.classCounted (counter y_train), .positiveDetected pos,
            .classCounted (counter y_train)], some pos) := by
  simp only [classPhase, hsort, hlast, hcnt, if_neg (by omega : ¬ (counter y_train).length > 2)]

lemma classPhase_multi {y_train : List Cell}
    (hlen : (counter y_train).length > 2) :
    classPhase y_train =
      .ok ([.classCounted (counter y_train), .multiclassSkip], none) := by
  simp only [classPhase, if_pos hlen]

lemma examine_quality_ok {se : StatsEnv} {y_test y_pred : List Cell}
    {pos : Cell} {v1 v2 v3 v4 v5 v6 : Rat}
    (h1 : se.fbeta_score y_test y_pred pos = .ok v1)
    (h2 : se.balanced_accuracy_score y_test y_pred = .ok v2)
    (h3 : se.recall_score y_test y_pred pos = .ok v3)
    (h4 : se.precision_score y_test y_pred pos = .ok v4)
    (h5 : se.geometric_mean_score y_test y_pred pos = .ok v5)
    (h6 : se.cohen_kappa_score y_test y_pred = .ok v6) :
    examine_quality se y_test y_pred pos =
      ([.examined pos, .metricLogged .f1 v1, .metricLogged .balanced_accuracy v2,
        .metricLogged .recall v3, .metricLogged .precision v4,
        .metricLogged .gmean v5, .metricLogged .kappa v6], none) := by
  simp only [examine_quality, h1, h2, h3, h4, h5, h6]
  rfl

lemma fit_predict_evaluate_ok {env : Env σ} {st st' : σ} {X_train X_test : Matrix}
    {y_train y_test y_pred : List Cell} {target dataset_name : String} {pos : Cell}
    {v1 v2 v3 v4 v5 v6 : Rat}
    (hfit : env.fitM st X_train y_train target dataset_name = .ok st')
    (hpred : env.predictM st' X_test = .ok y_pred)
    (h1 : env.stats.fbeta_score y_test y_pred pos = .ok v1)
    (h2 : env.stats.balanced_accuracy_score y_test y_pred = .ok v2)
    (h3 : env.stats.recall_score y_test y_pred pos = .ok v3)
    (h4 : env.stats.precision_score y_test y_pred pos = .ok v4)
    (h5 : env.stats.geometric_mean_score y_test y_pred pos = .ok v5)
    (h6 : env.stats.cohen_kappa_score y_test y_pred = .ok v6) :
    fit_predict_evaluate env st X_train y_train target dataset_name X_test y_test pos =
      ([.fitStarted dataset_name, .predicted y_pred, .examined pos,
        .metricLogged .f1 v1, .metricLogged .balanced_accuracy v2,
        .metricLogged .recall v3, .metricLogged .precision v4,
        .metricLogged .gmean v5, .metricLogged .kappa v6], st', none) := by
  simp only [fit_predict_evaluate, hfit, hpred,
    examine_quality_ok h1 h2 h3 h4 h5 h6]
  rfl

/-- The full event trace of a successfully processed task, parameterised by
the events of the split phase. -/
def taskSuccessTrace (d : Dataset) (ev1 : List Event) (cb : List (Cell × Nat))
    (pos : Cell) (y_pred : List Cell) (v1 v2 v3 v4 v5 v6 : Rat) : List Event :=
  [.taskStarted d.id d.name] ++ ev1 ++
  [.classCounted cb, .positiveDetected pos, .classCounted cb,
   .fitStarted d.name, .predicted y_pred, .examined pos,
   .metricLogged .f1 v1, .metricLogged .balanced_accuracy v2,
   .metricLogged .recall v3, .metricLogged .precision v4,
   .metricLogged .gmean v5, .metricLogged .kappa v6]

lemma runTask_ok {env : Env σ} {st st' : σ} {d d' : Dataset} {ev1 : List Event}
    {s : SplitResult} {ks : List Cell} {pos : Cell} {npos : Nat}
    {y_pred : List Cell} {v1 v2 v3 v4 v5 v6 : Rat}
    (hsp : splitPhase env d = .ok (ev1, d', some s))
    (hlen : (counter s.y_train).length ≤ 2)
    (hsort : sortCells ((counter s.y_train).map Prod.fst) = .ok ks)
    (hlast : ks.getLast? = some pos)
    (hcnt : lookupCount (counter s.y_train) pos = some npos)
    (hfit : env.fitM st s.X_train s.y_train d.target_label d.name = .ok st')
    (hpred : env.predictM st' s.X_test = .ok y_pred)
    (h1 : env.stats.fbeta_score s.y_test y_pred pos = .ok v1)
    (h2 : env.stats.balanced_accuracy_score s.y_test y_pred = .ok v2)
    (h3 : env.stats.recall_score s.y_test y_pred pos = .ok v3)
    (h4 : env.stats.precision_score s.y_test y_pred pos = .ok v4)
    (h5 : env.stats.geometric_mean_score s.y_test y_pred pos = .ok v5)
    (h6 : env.stats.cohen_kappa_score s.y_test y_pred = .ok v6) :
    runTask env st d =
      .ok (taskSuccessTrace d ev1 (counter s.y_train) pos y_pred v1 v2 v3 v4 v5 v6,
           d', st', false) := by
  simp only [runTask, hsp, classPhase_ok hlen hsort hlast hcnt,
    fit_predict_evaluate_ok hfit hpred h1 h2 h3 h4 h5 h6,
    ExceptionWrapper.log_exception, taskSuccessTrace]
  simp

/-! Lemmas about `firstDedupAux`, `counter` and `lookupCount`. -/

lemma mem_firstDedupAux {c : Cell} :
    ∀ (ys seen : List Cell), c ∈ firstDedupAux seen ys ↔ c ∈ ys ∧ c ∉ seen := by
  intro ys
  induction ys with
  | nil => intro seen; simp [firstDedupAux]
  | cons a rest ih =>
    intro seen
    by_cases h : a ∈ seen
    · simp only [firstDedupAux, if_pos h, ih, List.mem_cons]
      constructor
      · tauto
      · rintro ⟨hm | hm, hs⟩
        · exact absurd (hm ▸ h) hs
        · exact ⟨hm, hs⟩
    · simp only [firstDedupAux, if_neg h, List.mem_cons, ih]
      by_cases hca : c = a
      · subst hca; tauto
      · tauto

lemma nodup_firstDedupAux : ∀ (ys seen : List Cell), (firstDedupAux seen ys).Nodup := by
  intro ys
  induction ys with
  | nil => intro seen; simp [firstDedupAux]
  | cons a rest ih =>
    intro seen
    by_cases h : a ∈ seen
    · simpa only [firstDedupAux, if_pos h] using ih seen
    · simp only [firstDedupAux, if_neg h, List.nodup_cons]
      refine ⟨fun hc => ?_, ih (a :: seen)⟩
      exact ((mem_firstDedupAux rest (a :: seen)).1 hc).2 (List.mem_cons_self a seen)

lemma counter_keys (ys : List Cell) :
    (counter ys).map Prod.fst = firstDedupAux [] ys := by
  unfold counter
  rw [List.map_map]
  have : (Prod.fst ∘ fun c : Cell => (c, ys.count c)) = id := by funext x; rfl
  rw [this, List.map_id]

lemma counter_length (ys : List Cell) :
    (counter ys).length = (firstDedupAux [] ys).length := by
  simp [counter]

lemma find?_pair_map {c : Cell} (f : Cell → Nat) :
    ∀ l : List Cell, c ∈ l →
      (l.map (fun x => (x, f x))).find? (fun p => p.1 == c) = some (c, f c) := by
  intro l
  induction l with
  | nil => intro h; cases h
  | cons x rest ih =>
    intro h
    by_cases hx : x = c
    · subst hx; simp [List.find?]
    · have hm : c ∈ rest := by
        cases h with
        | head => exact absurd rfl hx
        | tail _ hm => exact hm
      simp only [List.map_cons, List.find?]
      have : ((x, f x).1 == c) = false := by simp [hx]
      rw [this]
      exact ih hm

lemma lookupCount_counter {c : Cell} {ys : List Cell} (h : c ∈ ys) :
    lookupCount (counter ys) c = some (ys.count c) := by
  have hmem : c ∈ firstDedupAux [] ys :=
    (mem_firstDedupAux ys []).2 ⟨h, by simp⟩
  unfold lookupCount counter
  rw [find?_pair_map (fun x => ys.count x) _ hmem]
  rfl

/-- C8: For every training label vector with at most two distinct classes
(here with numeric labels `vals`, the shape the binary benchmarks have), the
positive class label selected by `run`'s detection step (`runner.py:98-99`,
embedded in `classPhase`) is the maximum label value `M` present in `y_train`,
irrespective of class frequencies: the hypotheses mention only membership and
ordering, never counts, so the selected label need not be the minority class. -/
theorem positive_label_is_max_of_binary_labels
    (vals : List Int) (M : Int)
    (hM : M ∈ vals) (hmax : ∀ v ∈ vals, v ≤ M)
    (hlen : (counter (vals.map Cell.num)).length ≤ 2) :
    classPhase (vals.map Cell.num) =
      .ok ([.classCounted (counter (vals.map Cell.num)),
            .positiveDetected (Cell.num M),
            .classCounted (counter (vals.map Cell.num))],
           some (Cell.num M)) := by
  have hMys : Cell.num M ∈ vals.map Cell.num := List.mem_map_of_mem _ hM
  have hMkeys : Cell.num M ∈ firstDedupAux [] (vals.map Cell.num) :=
    (mem_firstDedupAux _ _).2 ⟨hMys, by simp⟩
  have hnodup := nodup_firstDedupAux (vals.map Cell.num) []
  have hlen2 : (firstDedupAux [] (vals.map Cell.num)).length ≤ 2 := by
    rw [← counter_length]; exact hlen
  have hcnt := lookupCount_counter hMys
  have hkey : ∀ k ∈ firstDedupAux [] (vals.map Cell.num),
      ∃ v, v ∈ vals ∧ k = Cell.num v ∧ v ≤ M := by
    intro k hk
    have hky : k ∈ vals.map Cell.num := ((mem_firstDedupAux _ _).1 hk).1
    obtain ⟨v, hv, rfl⟩ := List.mem_map.1 hky
    exact ⟨v, hv, rfl, hmax v hv⟩
  cases hk : firstDedupAux [] (vals.map Cell.num) with
  | nil => rw [hk] at hMkeys; cases hMkeys
  | cons a tl =>
    cases tl with
    | nil =>
      obtain ⟨u, hu, rfl, huM⟩ := hkey a (by rw [hk]; exact List.mem_cons_self _ _)
      have hMa : Cell.num M = Cell.num u := by
        rw [hk] at hMkeys; simpa using hMkeys
      have hMu : M = u := by injection hMa
      subst hMu
      have hsort : sortCells ((counter (vals.map Cell.num)).map Prod.fst) =
          .ok [Cell.num M] := by
        rw [counter_keys, hk]
        simp [sortCells, cellsAsInts?, insertionSort, insertSorted]
      exact classPhase_ok hlen hsort (by simp) hcnt
    | cons b tl2 =>
      cases tl2 with
      | cons c2 tl3 => rw [hk] at hlen2; simp at hlen2
      | nil =>
        obtain ⟨u, hu, rfl, huM⟩ := hkey a (by rw [hk]; simp)
        obtain ⟨v, hv, rfl, hvM⟩ := hkey b (by rw [hk]; simp)
        have hab : Cell.num u ≠ Cell.num v := by
          rw [hk] at hnodup
          exact (List.nodup_cons.1 hnodup).1 ∘ (by simp [·])
        have huv : u ≠ v := fun h => hab (by rw [h])
        have hMor : Cell.num M = Cell.num u ∨ Cell.num M = Cell.num v := by
          rw [hk] at hMkeys; simpa using hMkeys
        have hMuv : M = u ∨ M = v := by
          rcases hMor with h1 | h1
          · exact Or.inl (by injection h1)
          · exact Or.inr (by injection h1)
        by_cases hle : u ≤ v
        · have hMv : M = v := by omega
          have hsort : sortCells ((counter (vals.map Cell.num)).map Prod.fst) =
              .ok [Cell.num u, Cell.num v] := by
            rw [counter_keys, hk]
            simp [sortCells, cellsAsInts?, insertionSort, insertSorted,
              decide_eq_true hle]
          refine classPhase_ok hlen hsort ?_ hcnt
          simp [hMv]
        · have hMu : M = u := by omega
          have hsort : sortCells ((counter (vals.map Cell.num)).map Prod.fst) =
              .ok [Cell.num v, Cell.num u] := by
            rw [counter_keys, hk]
            simp [sortCells, cellsAsInts?, insertionSort, insertSorted,
              decide_eq_false hle]
          refine classPhase_ok hlen hsort ?_ hcnt
          simp [hMu]

/-- C8 witness: on training labels `[1, 1, 0]` the label `1` is both the
maximum and the majority class, and it is the selected positive class. -/
theorem positive_label_is_max_of_binary_labels_witness :
    classPhase ([1, 1, 0].map Cell.num) =
      .ok ([.classCounted (counter ([1, 1, 0].map Cell.num)),
            .positiveDetected (Cell.num 1),
            .classCounted (counter ([1, 1, 0].map Cell.num))],
           some (Cell.num 1)) :=
  positive_label_is_max_of_binary_labels [1, 1, 0] 1
    (by decide) (by decide) (by decide)

/-- C1: the claim says `ExperimentMain.main` reads the backend, output mode,
preset and trial count from the parsed arguments and uses them; in fact the
parser registers destinations `automl`, `out`, `preset`, `t`
(`main.py:18-21`) while the code reads attributes `automl`, `o`, `preset`,
`trials` (`main.py:24-27`), so every invocation raises `AttributeError` at
`getattr(args, 'o')` before logging is configured or a runner chosen. -/
theorem main_always_raises_attribute_error (now : String) (args : ArgNamespace) :
    ExperimentMain.main now args = .error (.attributeError "o") := rfl

/-- C6: `examine_quality` computes and logs, in this order, F1 (as
`fbeta_score` with `beta=1`), balanced accuracy, recall, precision, geometric
mean and Cohen's kappa of the predictions against the held-out test labels;
the F1, recall, precision and geometric-mean calls receive the positive
label, and no exception escapes when the metric calls succeed. -/
theorem examine_quality_logs_six_metrics
    (se : StatsEnv) (y_test y_pred : List Cell) (pos : Cell)
    (v1 v2 v3 v4 v5 v6 : Rat)
    (h1 : se.fbeta_score y_test y_pred pos = .ok v1)
    (h2 : se.balanced_accuracy_score y_test y_pred = .ok v2)
    (h3 : se.recall_score y_test y_pred pos = .ok v3)
    (h4 : se.precision_score y_test y_pred pos = .ok v4)
    (h5 : se.geometric_mean_score y_test y_pred pos = .ok v5)
    (h6 : se.cohen_kappa_score y_test y_pred = .ok v6) :
    examine_quality se y_test y_pred pos =
      ([.examined pos, .metricLogged .f1 v1, .metricLogged .balanced_accuracy v2,
        .metricLogged .recall v3, .metricLogged .precision v4,
        .metricLogged .gmean v5, .metricLogged .kappa v6], none) :=
  examine_quality_ok h1 h2 h3 h4 h5 h6

/-- C6 witness: the six metric values of the demo statistics environment are
logged in order for a concrete test set. -/
theorem examine_quality_logs_six_metrics_witness :
    examine_quality demoStats [Cell.num 0, Cell.num 1] [Cell.num 1, Cell.num 0]
        (Cell.num 1) =
      ([.examined (Cell.num 1), .metricLogged .f1 1,
        .metricLogged .balanced_accuracy 2, .metricLogged .recall 3,
        .metricLogged .precision 4, .metricLogged .gmean 5,
        .metricLogged .kappa 6], none) :=
  examine_quality_logs_six_metrics demoStats _ _ _ _ _ _ _ _ _
    rfl rfl rfl rfl rfl rfl

/-- C9: `ExperimentRunner.run` ends the entire experiment early — returning
with every remaining task unprocessed and untouched — when it encounters
(i) a `None` task, (ii) a DataFrame task whose preprocessing returns `None`
(the task keeping only the in-place mutation of its `X`), or (iii) a task
whose training labels have more than two distinct classes. -/
theorem run_ends_early_on_none_failed_preprocess_or_multiclass :
    (∀ (σ : Type) (env : Env σ) (st : σ) (n0 : Nat) (n? : Option Nat)
        (rest : List (Option Dataset)),
      ExperimentRunner.run env st n0 n? (none :: rest) =
        .ok ⟨[], none :: rest, st, n?.getD n0⟩) ∧
    (∀ (σ : Type) (env : Env σ) (st : σ) (n0 : Nat) (n? : Option Nat)
        (d : Dataset) (df cx : DataFrame) (rest : List (Option Dataset)),
      d.X = .dataframe df →
      preprocess_data df (squeeze d.y) = .ok ⟨cx, none⟩ →
      ExperimentRunner.run env st n0 n? (some d :: rest) =
        .ok ⟨[.taskStarted d.id d.name, .preprocessed d.id],
             some { d with X := .dataframe cx } :: rest, st, n?.getD n0⟩) ∧
    (∀ (σ : Type) (env : Env σ) (st : σ) (n0 : Nat) (n? : Option Nat)
        (d d' : Dataset) (ev1 : List Event) (s : SplitResult)
        (rest : List (Option Dataset)),
      splitPhase env d = .ok (ev1, d', some s) →
      (counter s.y_train).length > 2 →
      ExperimentRunner.run env st n0 n? (some d :: rest) =
        .ok ⟨[.taskStarted d.id d.name] ++ ev1 ++
               [.classCounted (counter s.y_train), .multiclassSkip],
             some d' :: rest, st, n?.getD n0⟩) := by
  refine ⟨fun σ env st n0 n? rest => rfl, ?_, ?_⟩
  · intro σ env st n0 n? d df cx rest hX hp
    have hrt : runTask env st d =
        .ok ([.taskStarted d.id d.name, .preprocessed d.id],
             { d with X := .dataframe cx }, st, true) := by
      simp only [runTask, splitPhase_df_none hX hp]
      rfl
    simp only [ExperimentRunner.run, runLoop, hrt]
    rfl
  · intro σ env st n0 n? d d' ev1 s rest hsp hm
    have hrt : runTask env st d =
        .ok ([.taskStarted d.id d.name] ++ ev1 ++
               [.classCounted (counter s.y_train), .multiclassSkip],
             d', st, true) := by
      simp only [runTask, hsp, classPhase_multi hm]
    simp only [ExperimentRunner.run, runLoop, hrt]
    rfl

/-- C9 witness: a `None` task, the missing-value DataFrame task, and a
three-class task each end the run, leaving the trailing task untouched. -/
theorem run_ends_early_witness :
    (ExperimentRunner.run demoEnvU () 10 none [none, some ndTask] =
      .ok ⟨[], [none, some ndTask], (), 10⟩) ∧
    (ExperimentRunner.run demoEnvU () 10 none [some dfNaTask, some ndTask] =
      .ok ⟨[.taskStarted 4 "dfna", .preprocessed 4],
           some { dfNaTask with X := .dataframe ⟨[0], [("a", [.num 7])]⟩ } ::
             [some ndTask], (), 10⟩) ∧
    (ExperimentRunner.run demoEnvU () 10 none [some ndMultiTask, some ndTask] =
      .ok ⟨[.taskStarted 5 "multi"] ++ [.splitDone 5] ++
             [.classCounted (counter [Cell.num 0, Cell.num 1, Cell.num 2]),
              .multiclassSkip],
           some ndMultiTask :: [some ndTask], (), 10⟩) :=
  ⟨run_ends_early_on_none_failed_preprocess_or_multiclass.1 Unit demoEnvU () 10
      none [some ndTask],
   run_ends_early_on_none_failed_preprocess_or_multiclass.2.1 Unit demoEnvU ()
      10 none dfNaTask ⟨[0, 1], [("a", [.num 7, .na])]⟩
      ⟨[0], [("a", [.num 7])]⟩ [some ndTask] rfl rfl,
   run_ends_early_on_none_failed_preprocess_or_multiclass.2.2 Unit demoEnvU ()
      10 none ndMultiTask ndMultiTask [.splitDone 5]
      ⟨.ndarray [[.num 1], [.num 2], [.num 3]],
       .ndarray [[.num 1], [.num 2], [.num 3]],
       [Cell.num 0, Cell.num 1, Cell.num 2],
       [Cell.num 0, Cell.num 1, Cell.num 2]⟩
      [some ndTask] rfl (by decide)⟩

/-- C5: exceptions from the external calls are caught and logged rather than
propagated: (i) a pool timeout inside `OpenMLExperimentRunner.load_dataset`
is logged and `None` returned; (ii) any other exception there is logged with
its traceback and `None` returned; (iii) an exception raised anywhere inside
the `fit`/`predict`/`examine_quality` closure of `run` is caught by the
`ExceptionWrapper`, logged, and the task loop continues (the iteration does
not `return`). -/
theorem load_and_fit_errors_caught_and_logged :
    (∀ (fetch : Option Nat → FetchOutcome) (idCounter : Nat) (task_id : Option Nat),
      fetch task_id = .timeout →
      OpenMLExperimentRunner.load_dataset fetch idCounter task_id =
        ([.timeoutLogged task_id], none, idCounter)) ∧
    (∀ (fetch : Option Nat → FetchOutcome) (idCounter : Nat) (task_id : Option Nat)
        (e : PyErr),
      fetch task_id = .raised e →
      OpenMLExperimentRunner.load_dataset fetch idCounter task_id =
        ([.exceptionTraceLogged e], none, idCounter)) ∧
    (∀ (σ : Type) (env : Env σ) (st st' : σ) (d d' : Dataset) (ev1 ev2 evs : List Event)
        (s : SplitResult) (pos : Cell) (e : PyErr),
      splitPhase env d = .ok (ev1, d', some s) →
      classPhase s.y_train = .ok (ev2, some pos) →
      fit_predict_evaluate env st s.X_train s.y_train d.target_label d.name
          s.X_test s.y_test pos = (evs, st', some e) →
      runTask env st d =
        .ok ([.taskStarted d.id d.name] ++ ev1 ++ ev2 ++
               (evs ++ [.exceptionLogged e]), d', st', false)) := by
  refine ⟨?_, ?_, ?_⟩
  · intro fetch idCounter task_id h
    simp only [OpenMLExperimentRunner.load_dataset, h]
  · intro fetch idCounter task_id e h
    simp only [OpenMLExperimentRunner.load_dataset, h]
  · intro σ env st st' d d' ev1 ev2 evs s pos e hsp hcp hfpe
    simp only [runTask, hsp, hcp, hfpe, ExceptionWrapper.log_exception]

/-- C5 witness: a timed-out fetch, a raised fetch, and a failing `fit` are
each caught and logged at concrete inputs; the failing `fit` leaves the loop
running (`false`). -/
theorem load_and_fit_errors_caught_and_logged_witness :
    (OpenMLExperimentRunner.load_dataset (fun _ => .timeout) 1 (some 3) =
      ([.timeoutLogged (some 3)], none, 1)) ∧
    (OpenMLExperimentRunner.load_dataset (fun _ => .raised (.exception "conn")) 1
        (some 3) =
      ([.exceptionTraceLogged (.exception "conn")], none, 1)) ∧
    (runTask demoFailEnv () ndTask =
      .ok ([.taskStarted 1 "nd"] ++ [.splitDone 1] ++
             [.classCounted (counter [Cell.num 0, Cell.num 1]),
              .positiveDetected (Cell.num 1),
              .classCounted (counter [Cell.num 0, Cell.num 1])] ++
             ([.fitStarted "nd"] ++ [.exceptionLogged (.exception "boom")]),
           ndTask, (), false)) :=
  ⟨load_and_fit_errors_caught_and_logged.1 (fun _ => .timeout) 1 (some 3) rfl,
   load_and_fit_errors_caught_and_logged.2.1 (fun _ => .raised (.exception "conn"))
      1 (some 3) (.exception "conn") rfl,
   load_and_fit_errors_caught_and_logged.2.2 Unit demoFailEnv () () ndTask ndTask
      [.splitDone 1]
      [.classCounted (counter [Cell.num 0, Cell.num 1]),
       .positiveDetected (Cell.num 1),
       .classCounted (counter [Cell.num 0, Cell.num 1])]
      [.fitStarted "nd"]
      ⟨.ndarray [[.num 10], [.num 20]], .ndarray [[.num 10], [.num 20]],
       [Cell.num 0, Cell.num 1], [Cell.num 0, Cell.num 1]⟩
      (Cell.num 1) (.exception "boom") rfl rfl rfl⟩

/-- C3 counterexample: a task whose feature matrix is a numpy array is split
and fully processed by `run` without `preprocess_data` ever being called, so
it is not the case that every loaded dataset is preprocessed before being
split, "whether its feature matrix is a numpy array or a pandas DataFrame". -/
theorem ndarray_task_split_without_preprocess :
    (ExperimentRunner.run demoEnvU () 10 none [some ndTask]).toOption.map
        (fun r => (r.events.any isPreprocessEvent, r.events.any isSplitEvent)) =
      some (false, true) := by
  rfl

/-- C3 (amended): for every task processed by `run`, the stages execute in
the fixed order load → (preprocess) → split → class analysis → search/fit →
predict → score, where the preprocessing stage runs exactly for tasks whose
feature matrix is a pandas DataFrame: a numpy-array task is split directly
(first conjunct, trace without a preprocess event), while a DataFrame task is
preprocessed before being split (second conjunct). -/
theorem pipeline_stage_order :
    (∀ (σ : Type) (env : Env σ) (st st' : σ) (d : Dataset)
        (m : List (List Cell)) (s : SplitResult) (ks : List Cell) (pos : Cell)
        (npos : Nat) (y_pred : List Cell) (v1 v2 v3 v4 v5 v6 : Rat),
      d.X = .ndarray m →
      env.stats.split (.ndarray m) d.y = .ok s →
      (counter s.y_train).length ≤ 2 →
      sortCells ((counter s.y_train).map Prod.fst) = .ok ks →
      ks.getLast? = some pos →
      lookupCount (counter s.y_train) pos = some npos →
      env.fitM st s.X_train s.y_train d.target_label d.name = .ok st' →
      env.predictM st' s.X_test = .ok y_pred →
      env.stats.fbeta_score s.y_test y_pred pos = .ok v1 →
      env.stats.balanced_accuracy_score s.y_test y_pred = .ok v2 →
      env.stats.recall_score s.y_test y_pred pos = .ok v3 →
      env.stats.precision_score s.y_test y_pred pos = .ok v4 →
      env.stats.geometric_mean_score s.y_test y_pred pos = .ok v5 →
      env.stats.cohen_kappa_score s.y_test y_pred = .ok v6 →
      runTask env st d =
        .ok (taskSuccessTrace d [.splitDone d.id] (counter s.y_train) pos y_pred
               v1 v2 v3 v4 v5 v6, d, st', false)) ∧
    (∀ (σ : Type) (env : Env σ) (st st' : σ) (d : Dataset) (df cx X' : DataFrame)
        (y' : List Cell) (s : SplitResult) (ks : List Cell) (pos : Cell)
        (npos : Nat) (y_pred : List Cell) (v1 v2 v3 v4 v5 v6 : Rat),
      d.X = .dataframe df →
      preprocess_data df (squeeze d.y) = .ok ⟨cx, some (X', y')⟩ →
      env.stats.split (.dataframe X') (squeeze y') = .ok s →
      (counter s.y_train).length ≤ 2 →
      sortCells ((counter s.y_train).map Prod.fst) = .ok ks →
      ks.getLast? = some pos →
      lookupCount (counter s.y_train) pos = some npos →
      env.fitM st s.X_train s.y_train d.target_label d.name = .ok st' →
      env.predictM st' s.X_test = .ok y_pred →
      env.stats.fbeta_score s.y_test y_pred pos = .ok v1 →
      env.stats.balanced_accuracy_score s.y_test y_pred = .ok v2 →
      env.stats.recall_score s.y_test y_pred pos = .ok v3 →
      env.stats.precision_score s.y_test y_pred pos = .ok v4 →
      env.stats.geometric_mean_score s.y_test y_pred pos = .ok v5 →
      env.stats.cohen_kappa_score s.y_test y_pred = .ok v6 →
      runTask env st d =
        .ok (taskSuccessTrace d [.preprocessed d.id, .splitDone d.id]
               (counter s.y_train) pos y_pred v1 v2 v3 v4 v5 v6,
             { d with X := .dataframe cx }, st', false)) := by
  constructor
  · intro σ env st st' d m s ks pos npos y_pred v1 v2 v3 v4 v5 v6
      hX hs hlen hsort hlast hcnt hfit hpred h1 h2 h3 h4 h5 h6
    exact runTask_ok (splitPhase_nd hX hs) hlen hsort hlast hcnt hfit hpred
      h1 h2 h3 h4 h5 h6
  · intro σ env st st' d df cx X' y' s ks pos npos y_pred v1 v2 v3 v4 v5 v6
      hX hp hs hlen hsort hlast hcnt hfit hpred h1 h2 h3 h4 h5 h6
    exact runTask_ok (splitPhase_df hX hp hs) hlen hsort hlast hcnt hfit hpred
      h1 h2 h3 h4 h5 h6

/-- C3 witness: the amended order at concrete inputs — the DataFrame task is
preprocessed then split then fitted, predicted and scored. -/
theorem pipeline_stage_order_witness :
    runTask demoEnvU () dfTask =
      .ok (taskSuccessTrace dfTask [.preprocessed 2, .splitDone 2]
             (counter [Cell.num 0, Cell.num 1]) (Cell.num 1)
             [Cell.num 1, Cell.num 0] 1 2 3 4 5 6,
           { dfTask with
             X := .dataframe ⟨[0, 1], [("a", [.num 5, .num 6])]⟩ }, (), false) :=
  pipeline_stage_order.2 Unit demoEnvU () () dfTask
    ⟨[0, 1], [("a", [.num 5, .num 6])]⟩ ⟨[0, 1], [("a", [.num 5, .num 6])]⟩
    ⟨[0, 1], [("a", [.num 5, .num 6])]⟩ [Cell.num 0, Cell.num 1]
    ⟨.dataframe ⟨[0, 1], [("a", [.num 5, .num 6])]⟩,
     .dataframe ⟨[0, 1], [("a", [.num 5, .num 6])]⟩,
     [Cell.num 0, Cell.num 1], [Cell.num 0, Cell.num 1]⟩
    [Cell.num 0, Cell.num 1] (Cell.num 1) 1 [Cell.num 1, Cell.num 0]
    1 2 3 4 5 6 rfl rfl rfl (by decide) rfl rfl rfl rfl rfl rfl rfl rfl rfl rfl rfl

lemma beforeIn_taskSuccessTrace_pos_fit (d : Dataset) (ev1 : List Event)
    (hev1 : ev1 = [.splitDone d.id] ∨ ev1 = [.preprocessed d.id, .splitDone d.id])
    (cb : List (Cell × Nat)) (pos : Cell) (y_pred : List Cell)
    (v1 v2 v3 v4 v5 v6 : Rat) :
    beforeIn (taskSuccessTrace d ev1 cb pos y_pred v1 v2 v3 v4 v5 v6)
        (.positiveDetected pos) (.fitStarted d.name) = true ∧
    beforeIn (taskSuccessTrace d ev1 cb pos y_pred v1 v2 v3 v4 v5 v6)
        (.fitStarted d.name) (.examined pos) = true := by
  rcases hev1 with rfl | rfl <;>
    simp [taskSuccessTrace, beforeIn, firstIndexOf]

/-- C7: for every binary task processed by `run`, the positive-class label is
detected from the training labels (`runner.py:98-99`) before the search is
delegated to `fit`, and that same label is the one later passed as
`pos_label` to `examine_quality`: in the task's trace, `positiveDetected pos`
occurs strictly before `fitStarted`, which occurs strictly before
`examined pos` — with the same `pos` in both events.  The two conjuncts cover
numpy-array and DataFrame feature matrices. -/
theorem positive_class_detected_before_fit_and_used_in_examine :
    (∀ (σ : Type) (env : Env σ) (st st' : σ) (d : Dataset)
        (m : List (List Cell)) (s : SplitResult) (ks : List Cell) (pos : Cell)
        (npos : Nat) (y_pred : List Cell) (v1 v2 v3 v4 v5 v6 : Rat),
      d.X = .ndarray m →
      env.stats.split (.ndarray m) d.y = .ok s →
      (counter s.y_train).length ≤ 2 →
      sortCells ((counter s.y_train).map Prod.fst) = .ok ks →
      ks.getLast? = some pos →
      lookupCount (counter s.y_train) pos = some npos →
      env.fitM st s.X_train s.y_train d.target_label d.name = .ok st' →
      env.predictM st' s.X_test = .ok y_pred →
      env.stats.fbeta_score s.y_test y_pred pos = .ok v1 →
      env.stats.balanced_accuracy_score s.y_test y_pred = .ok v2 →
      env.stats.recall_score s.y_test y_pred pos = .ok v3 →
      env.stats.precision_score s.y_test y_pred pos = .ok v4 →
      env.stats.geometric_mean_score s.y_test y_pred pos = .ok v5 →
      env.stats.cohen_kappa_score s.y_test y_pred = .ok v6 →
      runTask env st d =
        .ok (taskSuccessTrace d [.splitDone d.id] (counter s.y_train) pos y_pred
               v1 v2 v3 v4 v5 v6, d, st', false) ∧
      beforeIn (taskSuccessTrace d [.splitDone d.id] (counter s.y_train) pos
          y_pred v1 v2 v3 v4 v5 v6) (.positiveDetected pos) (.fitStarted d.name)
        = true ∧
      beforeIn (taskSuccessTrace d [.splitDone d.id] (counter s.y_train) pos
          y_pred v1 v2 v3 v4 v5 v6) (.fitStarted d.name) (.examined pos)
        = true) ∧
    (∀ (σ : Type) (env : Env σ) (st st' : σ) (d : Dataset) (df cx X' : DataFrame)
        (y' : List Cell) (s : SplitResult) (ks : List Cell) (pos : Cell)
        (npos : Nat) (y_pred : List Cell) (v1 v2 v3 v4 v5 v6 : Rat),
      d.X = .dataframe df →
      preprocess_data df (squeeze d.y) = .ok ⟨cx, some (X', y')⟩ →
      env.stats.split (.dataframe X') (squeeze y') = .ok s →
      (counter s.y_train).length ≤ 2 →
      sortCells ((counter s.y_train).map Prod.fst) = .ok ks →
      ks.getLast? = some pos →
      lookupCount (counter s.y_train) pos = some npos →
      env.fitM st s.X_train s.y_train d.target_label d.name = .ok st' →
      env.predictM st' s.X_test = .ok y_pred →
      env.stats.fbeta_score s.y_test y_pred pos = .ok v1 →
      env.stats.balanced_accuracy_score s.y_test y_pred = .ok v2 →
      env.stats.recall_score s.y_test y_pred pos = .ok v3 →
      env.stats.precision_score s.y_test y_pred pos = .ok v4 →
      env.stats.geometric_mean_score s.y_test y_pred pos = .ok v5 →
      env.stats.cohen_kappa_score s.y_test y_pred = .ok v6 →
      runTask env st d =
        .ok (taskSuccessTrace d [.preprocessed d.id, .splitDone d.id]
               (counter s.y_train) pos y_pred v1 v2 v3 v4 v5 v6,
             { d with X := .dataframe cx }, st', false) ∧
      beforeIn (taskSuccessTrace d [.preprocessed d.id, .splitDone d.id]
          (counter s.y_train) pos y_pred v1 v2 v3 v4 v5 v6)
        (.positiveDetected pos) (.fitStarted d.name) = true ∧
      beforeIn (taskSuccessTrace d [.preprocessed d.id, .splitDone d.id]
          (counter s.y_train) pos y_pred v1 v2 v3 v4 v5 v6)
        (.fitStarted d.name) (.examined pos) = true) := by
  constructor
  · intro σ env st st' d m s ks pos npos y_pred v1 v2 v3 v4 v5 v6
      hX hs hlen hsort hlast hcnt hfit hpred h1 h2 h3 h4 h5 h6
    obtain ⟨hb1, hb2⟩ := beforeIn_taskSuccessTrace_pos_fit d [.splitDone d.id]
      (Or.inl rfl) (counter s.y_train) pos y_pred v1 v2 v3 v4 v5 v6
    exact ⟨runTask_ok (splitPhase_nd hX hs) hlen hsort hlast hcnt hfit hpred
      h1 h2 h3 h4 h5 h6, hb1, hb2⟩
  · intro σ env st st' d df cx X' y' s ks pos npos y_pred v1 v2 v3 v4 v5 v6
      hX hp hs hlen hsort hlast hcnt hfit hpred h1 h2 h3 h4 h5 h6
    obtain ⟨hb1, hb2⟩ := beforeIn_taskSuccessTrace_pos_fit d
      [.preprocessed d.id, .splitDone d.id] (Or.inr rfl)
      (counter s.y_train) pos y_pred v1 v2 v3 v4 v5 v6
    exact ⟨runTask_ok (splitPhase_df hX hp hs) hlen hsort hlast hcnt hfit hpred
      h1 h2 h3 h4 h5 h6, hb1, hb2⟩

/-- C7 witness: at a concrete binary numpy task, the detected positive label
`1` precedes the `fit` delegation and is passed to `examine_quality`. -/
theorem positive_class_detected_before_fit_witness :
    runTask demoEnvU () ndTask =
      .ok (taskSuccessTrace ndTask [.splitDone 1] (counter [Cell.num 0, Cell.num 1])
             (Cell.num 1) [Cell.num 1, Cell.num 0] 1 2 3 4 5 6, ndTask, (), false) ∧
    beforeIn (taskSuccessTrace ndTask [.splitDone 1]
        (counter [Cell.num 0, Cell.num 1]) (Cell.num 1) [Cell.num 1, Cell.num 0]
        1 2 3 4 5 6) (.positiveDetected (Cell.num 1)) (.fitStarted "nd") = true ∧
    beforeIn (taskSuccessTrace ndTask [.splitDone 1]
        (counter [Cell.num 0, Cell.num 1]) (Cell.num 1) [Cell.num 1, Cell.num 0]
        1 2 3 4 5 6) (.fitStarted "nd") (.examined (Cell.num 1)) = true :=
  positive_class_detected_before_fit_and_used_in_examine.1 Unit demoEnvU () ()
    ndTask [[.num 10], [.num 20]]
    ⟨.ndarray [[.num 10], [.num 20]], .ndarray [[.num 10], [.num 20]],
     [Cell.num 0, Cell.num 1], [Cell.num 0, Cell.num 1]⟩
    [Cell.num 0, Cell.num 1] (Cell.num 1) 1 [Cell.num 1, Cell.num 0]
    1 2 3 4 5 6 rfl rfl (by decide) rfl rfl rfl rfl rfl rfl rfl rfl rfl rfl rfl

/-- C2: when the delegated ray-tune search completes with a best trial, the
task loop's call to `fit` leaves `_fitted_model` set to the best model found —
the model rebuilt from the best trial's configuration and fitted on the
training data — and `predict` then applies exactly that model to the test
data (`y_pred` is `trained`'s prediction on `X_test` by hypothesis `hmpred`,
and the trace records it): `runTask` succeeds with the final runner state
holding `trained`. -/
theorem run_fit_sets_fitted_model_and_predict_uses_it
    (se : StatsEnv) (ienv : ImbaEnv) (n : Nat) (st : ImbaState)
    (d d' : Dataset) (ev1 : List Event) (s : SplitResult) (ks : List Cell)
    (pos : Cell) (npos : Nat) (metric : String) (loss : Rat) (cfg : AlgoConfig)
    (trained : SkModel) (y_pred : List Cell) (v1 v2 v3 v4 v5 v6 : Rat)
    (hsp : splitPhase (mkImbaEnv se ienv n) d = .ok (ev1, d', some s))
    (hlen : (counter s.y_train).length ≤ 2)
    (hsort : sortCells ((counter s.y_train).map Prod.fst) = .ok ks)
    (hlast : ks.getLast? = some pos)
    (hcnt : lookupCount (counter s.y_train) pos = some npos)
    (hmet : metricFor st._metric = .ok metric)
    (htuner : ienv.tunerFit s.X_train s.y_train metric n =
      .ok (some ⟨some loss, some cfg⟩))
    (hmfit : ienv.modelFit ⟨cfg.model_class, cfg.params, none⟩ s.X_train s.y_train =
      .ok trained)
    (hmpred : ienv.modelPredict trained s.X_test = .ok y_pred)
    (h1 : se.fbeta_score s.y_test y_pred pos = .ok v1)
    (h2 : se.balanced_accuracy_score s.y_test y_pred = .ok v2)
    (h3 : se.recall_score s.y_test y_pred pos = .ok v3)
    (h4 : se.precision_score s.y_test y_pred pos = .ok v4)
    (h5 : se.geometric_mean_score s.y_test y_pred pos = .ok v5)
    (h6 : se.cohen_kappa_score s.y_test y_pred = .ok v6) :
    runTask (mkImbaEnv se ienv n) st d =
      .ok (taskSuccessTrace d ev1 (counter s.y_train) pos y_pred v1 v2 v3 v4 v5 v6,
           d', { st with _fitted_model := some (some trained) }, false) := by
  have hfit : (mkImbaEnv se ienv n).fitM st s.X_train s.y_train d.target_label
      d.name = .ok { st with _fitted_model := some (some trained) } := by
    simp only [mkImbaEnv, ImbaExperimentRunner.fit, hmet, htuner, hmfit]
  have hpred : (mkImbaEnv se ienv n).predictM
      { st with _fitted_model := some (some trained) } s.X_test = .ok y_pred := by
    simp only [mkImbaEnv, ImbaExperimentRunner.predict, hmpred]
  exact runTask_ok hsp hlen hsort hlast hcnt hfit hpred h1 h2 h3 h4 h5 h6

/-- C2 witness: with the demo ray environment on a concrete task, the runner
state after the loop holds the model rebuilt from the best trial and fitted
on the training data, and the trace records its test predictions. -/
theorem run_fit_sets_fitted_model_witness :
    runTask (mkImbaEnv demoStats demoImbaEnv 30) ⟨"f1", none⟩ ndTask =
      .ok (taskSuccessTrace ndTask [.splitDone 1] (counter [Cell.num 0, Cell.num 1])
             (Cell.num 1) [Cell.num 1, Cell.num 0] 1 2 3 4 5 6,
           ndTask,
           ⟨"f1", some (some ⟨"XGBClassifier", [("n_estimators", 50)],
              some (.ndarray [[.num 10], [.num 20]],
                    [Cell.num 0, Cell.num 1])⟩)⟩, false) :=
  run_fit_sets_fitted_model_and_predict_uses_it demoStats demoImbaEnv 30
    ⟨"f1", none⟩ ndTask ndTask [.splitDone 1]
    ⟨.ndarray [[.num 10], [.num 20]], .ndarray [[.num 10], [.num 20]],
     [Cell.num 0, Cell.num 1], [Cell.num 0, Cell.num 1]⟩
    [Cell.num 0, Cell.num 1] (Cell.num 1) 1 "f1_score" (-1)
    ⟨"XGBClassifier", [("n_estimators", 50)]⟩
    ⟨"XGBClassifier", [("n_estimators", 50)],
     some (.ndarray [[.num 10], [.num 20]], [Cell.num 0, Cell.num 1])⟩
    [Cell.num 1, Cell.num 0] 1 2 3 4 5 6
    rfl (by decide) rfl rfl rfl rfl rfl rfl rfl rfl rfl rfl rfl rfl rfl

/-- What `run` actually preserves of a task record: identifier, name, label
vector and target column name are untouched, and the feature matrix is
untouched whenever it is a numpy array. -/
def preservesMeta : Option Dataset → Option Dataset → Prop
  | none, none => True
  | some d, some d' =>
      d'.id = d.id ∧ d'.name = d.name ∧ d'.y = d.y ∧
      d'.target_label = d.target_label ∧
      ∀ m : List (List Cell), d.X = .ndarray m → d'.X = d.X
  | _, _ => False

lemma preservesMeta_refl (t : Option Dataset) : preservesMeta t t := by
  cases t with
  | none => trivial
  | some d => exact ⟨rfl, rfl, rfl, rfl, fun _ _ => rfl⟩

lemma splitPhase_meta {env : Env σ} {d d' : Dataset} {ev : List Event}
    {s? : Option SplitResult} (h : splitPhase env d = .ok (ev, d', s?)) :
    preservesMeta (some d) (some d') := by
  unfold splitPhase at h
  split at h
  · -- numpy branch
    split at h
    · cases h
    · simp only [Except.ok.injEq, Prod.mk.injEq] at h
      obtain ⟨-, rfl, -⟩ := h
      exact preservesMeta_refl _
  · -- DataFrame branch
    rename_i df heq
    split at h
    · cases h
    · split at h
      · simp only [Except.ok.injEq, Prod.mk.injEq] at h
        obtain ⟨-, rfl, -⟩ := h
        refine ⟨rfl, rfl, rfl, rfl, fun m hm => ?_⟩
        rw [heq] at hm; cases hm
      · split at h
        · cases h
        · simp only [Except.ok.injEq, Prod.mk.injEq] at h
          obtain ⟨-, rfl, -⟩ := h
          refine ⟨rfl, rfl, rfl, rfl, fun m hm => ?_⟩
          rw [heq] at hm; cases hm

lemma runTask_meta {env : Env σ} {st st' : σ} {d d' : Dataset}
    {evs : List Event} {b : Bool}
    (h : runTask env st d = .ok (evs, d', st', b)) :
    preservesMeta (some d) (some d') := by
  cases heq : splitPhase env d with
  | error e => simp only [runTask, heq] at h; exact Except.noConfusion h
  | ok r =>
    obtain ⟨ev1, d2, s?⟩ := r
    have hm := splitPhase_meta heq
    simp only [runTask, heq] at h
    cases s? with
    | none =>
      simp only [Except.ok.injEq, Prod.mk.injEq] at h
      obtain ⟨-, rfl, -⟩ := h
      exact hm
    | some s =>
      cases hcp : classPhase s.y_train with
      | error e => simp only [hcp] at h; exact Except.noConfusion h
      | ok r2 =>
        obtain ⟨ev2, pos?⟩ := r2
        simp only [hcp] at h
        cases pos? with
        | none =>
          simp only [Except.ok.injEq, Prod.mk.injEq] at h
          obtain ⟨-, rfl, -⟩ := h
          exact hm
        | some pos =>
          simp only [Except.ok.injEq, Prod.mk.injEq] at h
          obtain ⟨-, rfl, -⟩ := h
          exact hm

lemma runLoop_meta {env : Env σ} :
    ∀ (ts : List (Option Dataset)) (st st' : σ) (evs : List Event)
      (ts' : List (Option Dataset)),
      runLoop env st ts = .ok (evs, ts', st') →
      List.Forall₂ preservesMeta ts ts' := by
  intro ts
  induction ts with
  | nil =>
    intro st st' evs ts' h
    simp only [runLoop, Except.ok.injEq, Prod.mk.injEq] at h
    obtain ⟨-, rfl, -⟩ := h
    exact List.Forall₂.nil
  | cons t rest ih =>
    intro st st' evs ts' h
    cases t with
    | none =>
      simp only [runLoop, Except.ok.injEq, Prod.mk.injEq] at h
      obtain ⟨-, rfl, -⟩ := h
      exact List.Forall₂.cons trivial
        ((List.forall₂_same).2 (fun x _ => preservesMeta_refl x))
    | some d =>
      cases heq : runTask env st d with
      | error e => simp only [runLoop, heq] at h; exact Except.noConfusion h
      | ok r =>
        obtain ⟨evs0, d2, st2, halted⟩ := r
        have hm := runTask_meta heq
        simp only [runLoop, heq] at h
        cases halted with
        | true =>
          simp only [if_pos rfl, Except.ok.injEq, Prod.mk.injEq] at h
          obtain ⟨-, rfl, -⟩ := h
          exact List.Forall₂.cons hm
            ((List.forall₂_same).2 (fun x _ => preservesMeta_refl x))
        | false =>
          cases heq2 : runLoop env st2 rest with
          | error e => simp only [heq2] at h; simp at h
          | ok r2 =>
            obtain ⟨evs2, ts2, st3⟩ := r2
            simp only [heq2, Bool.false_eq_true, if_false, Except.ok.injEq,
              Prod.mk.injEq] at h
            obtain ⟨-, rfl, -⟩ := h
            exact List.Forall₂.cons hm (ih _ _ _ _ heq2)

/-- C4 counterexample: a DataFrame task whose single column is string-valued
is fully processed by `run`, yet its feature matrix is not equal to its value
at load time: `preprocess_data` dropped the encoded column from the caller's
frame in place, so the task record is not passed unchanged through the
pipeline. -/
theorem dataframe_task_X_mutated_by_run :
    (ExperimentRunner.run demoEnvU () 10 none [some dfStrTask]).toOption.map
        (fun r => r.tasks) =
      some [some { dfStrTask with X := .dataframe ⟨[0, 1], []⟩ }] ∧
    Matrix.dataframe ⟨[0, 1], []⟩ ≠ dfStrTask.X := by
  constructor
  · rfl
  · decide

/-- C4 (amended): after `run` processes the task list, every task record
keeps its identifier, name, label vector and target column name, and keeps
its feature matrix whenever that matrix is a numpy array; a DataFrame
feature matrix, however, may be mutated in place by `preprocess_data`
(missing-value rows dropped, empty and string columns dropped), which the
counterexample exhibits. -/
theorem run_preserves_fields_except_dataframe_X
    (σ : Type) (env : Env σ) (st : σ) (n0 : Nat) (n? : Option Nat)
    (tasks : List (Option Dataset)) (res : RunResult σ)
    (h : ExperimentRunner.run env st n0 n? tasks = .ok res) :
    List.Forall₂ preservesMeta tasks res.tasks := by
  cases heq : runLoop env st tasks with
  | error e =>
    simp only [ExperimentRunner.run, heq] at h
    exact Except.noConfusion h
  | ok r =>
    obtain ⟨evs, ts, st'⟩ := r
    simp only [ExperimentRunner.run, heq] at h
    cases h
    exact runLoop_meta tasks st st' evs ts heq

/-- C4 witness: the missing-value DataFrame task has its `X` mutated by the
run, yet identifier, name, labels and target name are preserved (and the
trailing numpy task keeps its matrix). -/
theorem run_preserves_fields_witness :
    List.Forall₂ preservesMeta [some dfNaTask, some ndTask]
      (RunResult.tasks ⟨[.taskStarted 4 "dfna", .preprocessed 4],
        [some { dfNaTask with X := .dataframe ⟨[0], [("a", [.num 7])]⟩ },
         some ndTask], (), 10⟩) :=
  run_preserves_fields_except_dataframe_X Unit demoEnvU () 10 none
    [some dfNaTask, some ndTask]
    ⟨[.taskStarted 4 "dfna", .preprocessed 4],
     [some { dfNaTask with X := .dataframe ⟨[0], [("a", [.num 7])]⟩ },
      some ndTask], (), 10⟩ rfl

/-! Lemmas for the missing-value analysis of `preprocess_data`. -/

lemma keepPositions_length {α : Type} {xs : List α} :
    ∀ keep : List Nat, (∀ i ∈ keep, i < xs.length) →
      (keepPositions keep xs).length = keep.length := by
  intro keep
  induction keep with
  | nil => intro _; rfl
  | cons i rest ih =>
    intro h
    have hi : i < xs.length := h i (List.mem_cons_self _ _)
    have hget : ∃ v, xs.get? i = some v :=
      ⟨xs.get ⟨i, hi⟩, List.get?_eq_get hi⟩
    obtain ⟨v, hv⟩ := hget
    simp only [keepPositions, List.filterMap_cons, hv, List.length_cons]
    have := ih (fun j hj => h j (List.mem_cons_of_mem _ hj))
    simpa [keepPositions] using this

lemma dropna_colNames (df : DataFrame) : (df.dropna).colNames = df.colNames := by
  unfold DataFrame.dropna DataFrame.colNames
  rw [List.map_map]
  apply List.map_congr_left
  intro a _
  rfl

lemma dropna_idx_le (df : DataFrame) :
    (df.dropna).idx.length ≤ df.idx.length := by
  unfold DataFrame.dropna
  have hmem : ∀ i ∈ (List.range df.idx.length).filter
      (fun j => df.cols.all (fun c => !(c.2.getD j Cell.na == Cell.na))),
      i < df.idx.length := by
    intro i hi
    exact List.mem_range.1 (List.mem_filter.1 hi).1
  rw [keepPositions_length _ hmem]
  calc _ ≤ (List.range df.idx.length).length := List.length_filter_le _ _
    _ = df.idx.length := List.length_range _

lemma dropna_shrinks {df : DataFrame} {i : Nat} {c : String × List Cell}
    (hi : i < df.idx.length) (hc : c ∈ df.cols)
    (hna : c.2.getD i Cell.na = Cell.na) :
    (df.dropna).idx.length < df.idx.length := by
  unfold DataFrame.dropna
  have hmem : ∀ j ∈ (List.range df.idx.length).filter
      (fun j => df.cols.all (fun c => !(c.2.getD j Cell.na == Cell.na))),
      j < df.idx.length := by
    intro j hj
    exact List.mem_range.1 (List.mem_filter.1 hj).1
  rw [keepPositions_length _ hmem]
  have hlt : ((List.range df.idx.length).filter
      (fun j => df.cols.all (fun c => !(c.2.getD j Cell.na == Cell.na)))).length
      < (List.range df.idx.length).length := by
    apply List.length_filter_lt_length_iff_exists.2
    refine ⟨i, List.mem_range.2 hi, ?_⟩
    intro hall
    have := List.all_eq_true.1 hall c hc
    rw [hna] at this
    simp at this
  calc _ < (List.range df.idx.length).length := hlt
    _ = df.idx.length := List.length_range _

lemma mem_dropCol_colNames {df : DataFrame} {m n : String}
    (hm : m ∈ df.colNames) (hne : m ≠ n) : m ∈ (df.dropCol n).colNames := by
  unfold DataFrame.colNames DataFrame.dropCol at *
  obtain ⟨c, hc, rfl⟩ := List.mem_map.1 hm
  exact List.mem_map.2 ⟨c, List.mem_filter.2 ⟨hc, by simp [hne]⟩, rfl⟩

lemma mem_hconcatReset_colNames {a : DataFrame} {b : List (String × List Cell)}
    {m : String} (hm : m ∈ a.colNames) : m ∈ (a.hconcatReset b).colNames := by
  unfold DataFrame.colNames DataFrame.hconcatReset at *
  rw [List.map_append]
  exact List.mem_append_left _ hm

lemma getCol?_isSome_of_mem {df : DataFrame} {n : String}
    (hn : n ∈ df.colNames) : ∃ col, df.getCol? n = some col := by
  unfold DataFrame.colNames at hn
  obtain ⟨c, hc, rfl⟩ := List.mem_map.1 hn
  have : ∃ x, df.cols.find? (fun p => p.1 == c.1) = some x := by
    rw [← Option.isSome_iff_exists]
    rw [List.find?_isSome]
    exact ⟨c, hc, by simp⟩
  obtain ⟨x, hx⟩ := this
  exact ⟨x.2, by unfold DataFrame.getCol?; rw [hx]; rfl⟩

lemma ppLoop_ok :
    ∀ (names : List String) (st : PPState), names.Nodup →
      (∀ n ∈ names, n ∈ st.cur.colNames) →
      ∃ st', names.foldlM ppStep st = .ok st' ∧
        st'.cur.idx.length = st.cur.idx.length := by
  intro names
  induction names with
  | nil => intro st _ _; exact ⟨st, rfl, rfl⟩
  | cons n rest ih =>
    intro st hnd hmem
    obtain ⟨hn, hrest⟩ := List.nodup_cons.1 hnd
    obtain ⟨col, hcol⟩ := getCol?_isSome_of_mem (hmem n (List.mem_cons_self _ _))
    have hmemr : ∀ m ∈ rest, m ∈ st.cur.colNames :=
      fun m hm => hmem m (List.mem_cons_of_mem _ hm)
    have hner : ∀ m ∈ rest, m ≠ n := fun m hm he => hn (he ▸ hm)
    rw [List.foldlM_cons]
    cases col with
    | nil =>
      have hstep : ppStep st n = .ok ⟨st.cur.dropCol n,
          if st.aliased then st.cur.dropCol n else st.caller, st.aliased⟩ := by
        unfold ppStep; rw [hcol]
      rw [hstep]
      obtain ⟨st', hfold, hlen⟩ := ih ⟨st.cur.dropCol n,
          if st.aliased then st.cur.dropCol n else st.caller, st.aliased⟩ hrest
        (fun m hm => mem_dropCol_colNames (hmemr m hm) (hner m hm))
      exact ⟨st', hfold, by simpa [DataFrame.dropCol] using hlen⟩
    | cons c cr =>
      by_cases hstr : c.isStr
      · have hstep : ppStep st n = .ok ⟨(st.cur.dropCol n).hconcatReset
            (getDummies n (c :: cr)),
            if st.aliased then st.cur.dropCol n else st.caller, false⟩ := by
          unfold ppStep; rw [hcol]; simp [hstr]
        rw [hstep]
        obtain ⟨st', hfold, hlen⟩ := ih ⟨(st.cur.dropCol n).hconcatReset
            (getDummies n (c :: cr)),
            if st.aliased then st.cur.dropCol n else st.caller, false⟩ hrest
          (fun m hm => mem_hconcatReset_colNames
            (mem_dropCol_colNames (hmemr m hm) (hner m hm)))
        refine ⟨st', hfold, ?_⟩
        rw [hlen]
        simp [DataFrame.hconcatReset, DataFrame.dropCol]
      · have hstep : ppStep st n = .ok st := by
          unfold ppStep; rw [hcol]; simp [hstr]
        rw [hstep]
        exact ih st hrest hmemr

lemma labelEncode_length (y : List Cell) : (labelEncode y).length = y.length := by
  simp [labelEncode]

/-- C10: a DataFrame feature matrix containing at least one row with a
missing value (witnessed by position `i` of column `c`) makes
`preprocess_data` return `None`: `dropna` drops the row from `X` while `y`
keeps its original length, so the final length-consistency check between `X`
and `y` fails.  The hypotheses state the basic shape consistency the datasets
have: distinct column names and equal `X`/`y` lengths. -/
theorem preprocess_missing_value_returns_none
    (X : DataFrame) (y : List Cell) (i : Nat) (c : String × List Cell)
    (hnodup : X.colNames.Nodup)
    (hlen : X.idx.length = y.length)
    (hi : i < X.idx.length) (hc : c ∈ X.cols)
    (hna : c.2.getD i Cell.na = Cell.na) :
    preprocessReturnedNone (preprocess_data X y) = true := by
  have hshrink : (X.dropna).idx.length < X.idx.length := dropna_shrinks hi hc hna
  have hfy : ∃ fy, y.head? = some fy := by
    cases y with
    | nil => rw [hlen] at hi; cases hi
    | cons a l => exact ⟨a, rfl⟩
  obtain ⟨fy, hfy⟩ := hfy
  have hnodup0 : (X.dropna).colNames.Nodup := by
    rw [dropna_colNames]; exact hnodup
  obtain ⟨st', hfold, hlen'⟩ := ppLoop_ok (X.dropna).colNames
    ⟨X.dropna, X.dropna, true⟩ hnodup0 (fun n hn => hn)
  have hy1 : ∀ y1 : List Cell, y1.length = y.length →
      st'.cur.idx.length ≠ y1.length := by
    intro y1 h1
    have h2 : st'.cur.idx.length = (X.dropna).idx.length := hlen'
    omega
  unfold preprocess_data
  rw [hfy]
  simp only [hfold]
  by_cases hstr : fy.isStr
  · rw [if_pos hstr, if_pos (hy1 _ (labelEncode_length y))]
    rfl
  · rw [if_neg hstr, if_pos (hy1 _ rfl)]
    rfl

/-- C10 witness: the concrete frame with a missing value in its second row
makes `preprocess_data` return `None`. -/
theorem preprocess_missing_value_returns_none_witness :
    preprocessReturnedNone (preprocess_data
      ⟨[0, 1], [("a", [.num 7, .na])]⟩ [Cell.num 0, Cell.num 1]) = true :=
  preprocess_missing_value_returns_none
    ⟨[0, 1], [("a", [.num 7, .na])]⟩ [Cell.num 0, Cell.num 1] 1
    ("a", [.num 7, .na]) (by decide) (by decide) (by decide) (by decide)
    (by decide)

end ImbaML
